import Mathlib

/-
Verification of the kootaah-theater registration form (src/App.tsx,
src/types.ts).  The component state (formData, errors, isSubmitting,
isSuccess, aiMessage) is embedded as a structure; each React event handler
becomes a pure state-transformer; the async `handleSubmit` is split at its
awaits into a synchronous start (up to `setIsSubmitting(true)`) and a
resumption taking the settled result of the external message generator.
The browser `alert` side effect in the catch branch is recorded in an
`alerts` log field.  A small-step event machine `step` composes the
handlers together with the rendering guards visible in the JSX: form
inputs exist only while `isSuccess` is false, the submit button is
disabled while `isSubmitting`, and the reset button exists only on the
success view.
-/

namespace KootaahTheater

/-- A browser file reference: the handlers inspect only the name
(displayed) and the declared MIME `type` string. -/
structure File where
  name : String
  type : String
  deriving DecidableEq

/-- RegistrationData, from src/types.ts. -/
structure RegistrationData where
  directorName : String
  playwrightName : String
  directorPhone : String
  playTitle : String
  scriptFile : Option File
  isDirectorPlaywright : Bool
  authorPermissionFile : Option File
  deriving DecidableEq

/-- The error map `Partial<Record<keyof RegistrationData, string>>`:
one optional message per field that ever receives one (the
`isDirectorPlaywright` key is never written). -/
structure Errors where
  directorName : Option String
  playwrightName : Option String
  directorPhone : Option String
  playTitle : Option String
  scriptFile : Option String
  authorPermissionFile : Option String
  deriving DecidableEq

/-- The empty error object `{}`. -/
def Errors.empty : Errors :=
  { directorName := none, playwrightName := none, directorPhone := none,
    playTitle := none, scriptFile := none, authorPermissionFile := none }

/-- `Object.keys(e).length > 0` is false: no key holds a message. -/
def Errors.isEmpty (e : Errors) : Bool :=
  e.directorName.isNone && e.playwrightName.isNone && e.directorPhone.isNone &&
  e.playTitle.isNone && e.scriptFile.isNone && e.authorPermissionFile.isNone

/-- The full component state of App.tsx: the five useState hooks, plus a
log of emitted `alert` messages modelling that browser side effect. -/
structure AppState where
  formData : RegistrationData
  errors : Errors
  isSubmitting : Bool
  isSuccess : Bool
  aiMessage : String
  alerts : List String
  deriving DecidableEq

/-- Initial formData (App.tsx lines 9-17). -/
def initialFormData : RegistrationData :=
  { directorName := "", playwrightName := "", directorPhone := "",
    playTitle := "", scriptFile := none, isDirectorPlaywright := true,
    authorPermissionFile := none }

/-- State on mount (App.tsx lines 9-21). -/
def initialState : AppState :=
  { formData := initialFormData, errors := Errors.empty,
    isSubmitting := false, isSuccess := false, aiMessage := "",
    alerts := [] }

/-- The four text inputs wired through handleInputChange. -/
inductive TextField where
  | directorName
  | playwrightName
  | directorPhone
  | playTitle
  deriving DecidableEq

/-- Write one text field of formData (the computed-key spread
`{ ...prev, [name]: value }`). -/
def setText (fd : RegistrationData) (f : TextField) (v : String) :
    RegistrationData :=
  match f with
  | .directorName => { fd with directorName := v }
  | .playwrightName => { fd with playwrightName := v }
  | .directorPhone => { fd with directorPhone := v }
  | .playTitle => { fd with playTitle := v }

/-- Read the error entry for a text field. -/
def getTextError (e : Errors) (f : TextField) : Option String :=
  match f with
  | .directorName => e.directorName
  | .playwrightName => e.playwrightName
  | .directorPhone => e.directorPhone
  | .playTitle => e.playTitle

/-- Clear the error entry for a text field (`{ ...prev, [name]: undefined }`). -/
def clearTextError (e : Errors) (f : TextField) : Errors :=
  match f with
  | .directorName => { e with directorName := none }
  | .playwrightName => { e with playwrightName := none }
  | .directorPhone => { e with directorPhone := none }
  | .playTitle => { e with playTitle := none }

/-- handleInputChange (App.tsx lines 23-29): store the value; clear the
error for that field when one is present. -/
def handleInputChange (s : AppState) (f : TextField) (v : String) : AppState :=
  { s with
    formData := setText s.formData f v,
    errors :=
      if (getTextError s.errors f).isSome then clearTextError s.errors f
      else s.errors }

/-- handleRadioChange (App.tsx lines 31-42): set the flag; switching to
YES nulls the permission file and clears its error. -/
def handleRadioChange (s : AppState) (isDirector : Bool) : AppState :=
  { s with
    formData :=
      { s.formData with
        isDirectorPlaywright := isDirector,
        authorPermissionFile :=
          if isDirector then none else s.formData.authorPermissionFile },
    errors :=
      if isDirector then { s.errors with authorPermissionFile := none }
      else s.errors }

/-- Error shown when the script upload is not a PDF (App.tsx line 47). -/
def scriptTypeError : String := "لطفا فقط فایل PDF بارگذاری کنید."

/-- handleScriptChange (App.tsx lines 44-52); the argument is
`e.target.files?.[0] || null`. -/
def handleScriptChange (s : AppState) (file : Option File) : AppState :=
  match file with
  | some f =>
    if f.type ≠ "application/pdf" then
      { s with errors := { s.errors with scriptFile := some scriptTypeError } }
    else
      { s with
        formData := { s.formData with scriptFile := some f },
        errors := { s.errors with scriptFile := none } }
  | none =>
      { s with
        formData := { s.formData with scriptFile := none },
        errors := { s.errors with scriptFile := none } }

/-- Error shown when the permission upload has a bad type (App.tsx line 57). -/
def permissionTypeError : String :=
  "لطفا فایل PDF یا تصویر (JPG/PNG) معتبر بارگذاری کنید."

/-- MIME types accepted by the permission guard (App.tsx line 56). -/
def permissionAcceptedTypes : List String :=
  ["application/pdf", "image/jpeg", "image/png", "image/jpg"]

/-- handlePermissionChange (App.tsx lines 54-62). -/
def handlePermissionChange (s : AppState) (file : Option File) : AppState :=
  match file with
  | some f =>
    if f.type ∉ permissionAcceptedTypes then
      { s with
        errors := { s.errors with authorPermissionFile := some permissionTypeError } }
    else
      { s with
        formData := { s.formData with authorPermissionFile := some f },
        errors := { s.errors with authorPermissionFile := none } }
  | none =>
      { s with
        formData := { s.formData with authorPermissionFile := none },
        errors := { s.errors with authorPermissionFile := none } }

/-- Validation message for a missing director name (App.tsx line 70). -/
def directorNameRequired : String := "نام کارگردان الزامی است."

/-- Validation message for a missing playwright name (App.tsx line 71). -/
def playwrightNameRequired : String := "نام نویسنده الزامی است."

/-- Validation message for a missing phone (App.tsx line 72). -/
def directorPhoneRequired : String := "شماره همراه کارگردان الزامی است."

/-- Validation message for a missing play title (App.tsx line 73). -/
def playTitleRequired : String := "نام اثر الزامی است."

/-- Validation message for a missing script file (App.tsx line 74). -/
def scriptFileRequired : String := "بارگذاری فایل نمایشنامه الزامی است."

/-- Validation message for a missing permission file (App.tsx line 78). -/
def permissionFileRequired : String :=
  "چون کارگردان و نویسنده یکی نیستند، بارگذاری مجوز الزامی است."

/-- JS `String.prototype.trim`, modelled on the character list: strip
whitespace characters from both ends of the string. -/
def jsTrim (s : String) : String :=
  String.mk
    (((s.data.dropWhile Char.isWhitespace).reverse.dropWhile
        Char.isWhitespace).reverse)

/-- The validation block of handleSubmit (App.tsx lines 68-79): each rule
writes its own key of the fresh `newErrors` object; no rule short-circuits
another.  `!value.trim()` holds exactly when the trimmed value is the
empty string. -/
def validate (fd : RegistrationData) : Errors :=
  { directorName :=
      if jsTrim fd.directorName = "" then some directorNameRequired else none,
    playwrightName :=
      if jsTrim fd.playwrightName = "" then some playwrightNameRequired else none,
    directorPhone :=
      if jsTrim fd.directorPhone = "" then some directorPhoneRequired else none,
    playTitle :=
      if jsTrim fd.playTitle = "" then some playTitleRequired else none,
    scriptFile :=
      if fd.scriptFile.isNone then some scriptFileRequired else none,
    authorPermissionFile :=
      if !fd.isDirectorPlaywright && fd.authorPermissionFile.isNone then
        some permissionFileRequired
      else none }

/-- The alert text of the catch branch (App.tsx line 99). -/
def submitFailureAlert : String := "خطایی رخ داد. لطفا مجددا تلاش کنید."

/-- Outcome of awaiting the external message generator: a resolved
message or a rejection. -/
inductive GenResult where
  | ok (msg : String)
  | err
  deriving DecidableEq

/-- handleSubmit up to its first await (App.tsx lines 64-86): run the
validator; with a non-empty error object publish it and return, otherwise
raise the isSubmitting flag and start the async work. -/
def handleSubmitStart (s : AppState) : AppState :=
  let newErrors := validate s.formData
  if newErrors.isEmpty then { s with isSubmitting := true }
  else { s with errors := newErrors }

/-- Resumption of handleSubmit when the delay and the generator call have
settled (App.tsx lines 88-102): on success store the message and enter the
success view; on rejection alert; either way the finally block lowers
isSubmitting. -/
def handleSubmitFinish (s : AppState) (g : GenResult) : AppState :=
  match g with
  | .ok msg => { s with aiMessage := msg, isSuccess := true, isSubmitting := false }
  | .err => { s with alerts := s.alerts ++ [submitFailureAlert], isSubmitting := false }

/-- resetForm (App.tsx lines 105-118). -/
def resetForm (s : AppState) : AppState :=
  { s with formData := initialFormData, isSuccess := false, aiMessage := "",
           errors := Errors.empty }

/-- UI events that can reach the component. -/
inductive Event where
  | input (f : TextField) (v : String)
  | radio (isDirector : Bool)
  | scriptSelect (file : Option File)
  | permissionSelect (file : Option File)
  | submitClick
  | submitSettle (g : GenResult)
  | resetClick
  deriving DecidableEq

/-- One UI event.  The guards reflect the JSX: the form and its inputs
render only while `isSuccess` is false; the submit button carries
`disabled={isSubmitting}` so a click while submitting does nothing; a
settle event fires only for the one outstanding submission; the reset
button renders only on the success view. -/
def step (s : AppState) (e : Event) : AppState :=
  match e with
  | .input f v => if s.isSuccess then s else handleInputChange s f v
  | .radio b => if s.isSuccess then s else handleRadioChange s b
  | .scriptSelect file => if s.isSuccess then s else handleScriptChange s file
  | .permissionSelect file => if s.isSuccess then s else handlePermissionChange s file
  | .submitClick =>
      if s.isSuccess || s.isSubmitting then s else handleSubmitStart s
  | .submitSettle g => if s.isSubmitting then handleSubmitFinish s g else s
  | .resetClick => if s.isSuccess then resetForm s else s

/-- The state after a sequence of events from mount. -/
def run (es : List Event) : AppState := es.foldl step initialState

/-- Boolean form of the script-file invariant: when set, the stored
script file has MIME type application/pdf. -/
def scriptInvB (s : AppState) : Bool :=
  match s.formData.scriptFile with
  | none => true
  | some f => f.type == "application/pdf"

/-- A fully and validly filled form, used to exercise the happy path. -/
def filledForm : RegistrationData :=
  { directorName := "Bahram", playwrightName := "Akbar",
    directorPhone := "0912", playTitle := "Marg",
    scriptFile := some { name := "s.pdf", type := "application/pdf" },
    isDirectorPlaywright := true, authorPermissionFile := none }

/-- Idle state holding the filled form. -/
def filledState : AppState :=
  { initialState with formData := filledForm }

lemma scriptFile_setText (fd : RegistrationData) (f : TextField) (v : String) :
    (setText fd f v).scriptFile = fd.scriptFile := by
  cases f <;> rfl

lemma scriptInvB_of_eq (s t : AppState)
    (heq : t.formData.scriptFile = s.formData.scriptFile)
    (h : scriptInvB s = true) : scriptInvB t = true := by
  unfold scriptInvB at h ⊢
  rw [heq]
  exact h

lemma scriptInvB_step (s : AppState) (e : Event) (h : scriptInvB s = true) :
    scriptInvB (step s e) = true := by
  cases e with
  | input f v =>
    by_cases hs : s.isSuccess = true
    · simpa [step, hs] using h
    · rw [show step s (.input f v) = handleInputChange s f v by
        simp [step, hs]]
      exact scriptInvB_of_eq s _ (scriptFile_setText s.formData f v) h
  | radio b =>
    by_cases hs : s.isSuccess = true
    · simpa [step, hs] using h
    · rw [show step s (.radio b) = handleRadioChange s b by simp [step, hs]]
      exact scriptInvB_of_eq s _ rfl h
  | scriptSelect file =>
    by_cases hs : s.isSuccess = true
    · simpa [step, hs] using h
    · rw [show step s (.scriptSelect file) = handleScriptChange s file by
        simp [step, hs]]
      match file with
      | none => simp [handleScriptChange, scriptInvB]
      | some f =>
        by_cases ht : f.type = "application/pdf"
        · simp [handleScriptChange, ht, scriptInvB]
        · rw [show handleScriptChange s (some f) =
              { s with errors := { s.errors with scriptFile := some scriptTypeError } } by
            simp [handleScriptChange, ht]]
          exact scriptInvB_of_eq s _ rfl h
  | permissionSelect file =>
    by_cases hs : s.isSuccess = true
    · simpa [step, hs] using h
    · rw [show step s (.permissionSelect file) = handlePermissionChange s file by
        simp [step, hs]]
      match file with
      | none => exact scriptInvB_of_eq s _ rfl h
      | some f =>
        by_cases ht : f.type ∈ permissionAcceptedTypes
        · rw [show handlePermissionChange s (some f) =
              { s with
                formData := { s.formData with authorPermissionFile := some f },
                errors := { s.errors with authorPermissionFile := none } } by
            simp [handlePermissionChange, ht]]
          exact scriptInvB_of_eq s _ rfl h
        · rw [show handlePermissionChange s (some f) =
              { s with
                errors := { s.errors with authorPermissionFile := some permissionTypeError } } by
            simp [handlePermissionChange, ht]]
          exact scriptInvB_of_eq s _ rfl h
  | submitClick =>
    by_cases hs : s.isSuccess = true ∨ s.isSubmitting = true
    · have h0 : step s .submitClick = s := by
        rcases hs with hs | hs <;> simp [step, hs]
      simpa [h0] using h
    · push_neg at hs
      have h1 : step s .submitClick = handleSubmitStart s := by
        simp [step, Bool.not_eq_true] at hs ⊢
        simp [hs.1, hs.2]
      rw [h1]
      unfold handleSubmitStart
      by_cases he : (validate s.formData).isEmpty = true
      · rw [if_pos he]
        exact scriptInvB_of_eq s _ rfl h
      · rw [if_neg he]
        exact scriptInvB_of_eq s _ rfl h
  | submitSettle g =>
    by_cases hs : s.isSubmitting = true
    · rw [show step s (.submitSettle g) = handleSubmitFinish s g by
        simp [step, hs]]
      cases g with
      | ok msg => exact scriptInvB_of_eq s _ rfl h
      | err => exact scriptInvB_of_eq s _ rfl h
    · simpa [step, hs] using h
  | resetClick =>
    by_cases hs : s.isSuccess = true
    · rw [show step s .resetClick = resetForm s by simp [step, hs]]
      simp [resetForm, scriptInvB, initialFormData]
    · simpa [step, hs] using h

/-- C1: at submit time the validator flags each of the four required text
fields exactly when it is empty or whitespace-only after trimming; the
rules accumulate independently, and when the resulting error map is
non-empty a submit click on the idle form only publishes those errors and
never raises the isSubmitting flag. -/
theorem validator_text_fields_and_abort (s : AppState)
    (hsuc : s.isSuccess = false) (hsub : s.isSubmitting = false)
    (hne : (validate s.formData).isEmpty = false) :
    ((validate s.formData).directorName.isSome ↔ jsTrim s.formData.directorName = "") ∧
    ((validate s.formData).playwrightName.isSome ↔ jsTrim s.formData.playwrightName = "") ∧
    ((validate s.formData).directorPhone.isSome ↔ jsTrim s.formData.directorPhone = "") ∧
    ((validate s.formData).playTitle.isSome ↔ jsTrim s.formData.playTitle = "") ∧
    step s .submitClick = { s with errors := validate s.formData } ∧
    (step s .submitClick).isSubmitting = false := by
  have habort : step s .submitClick = { s with errors := validate s.formData } := by
    simp [step, hsuc, hsub, handleSubmitStart, hne]
  refine ⟨?_, ?_, ?_, ?_, habort, ?_⟩
  · by_cases h : jsTrim s.formData.directorName = "" <;> simp [validate, h]
  · by_cases h : jsTrim s.formData.playwrightName = "" <;> simp [validate, h]
  · by_cases h : jsTrim s.formData.directorPhone = "" <;> simp [validate, h]
  · by_cases h : jsTrim s.formData.playTitle = "" <;> simp [validate, h]
  · rw [habort]
    exact hsub

/-- Witness for C1 at the freshly mounted (all-blank) state. -/
theorem validator_text_fields_and_abort_witness :
    (validate initialState.formData).isEmpty = false ∧
    (validate initialState.formData).directorName.isSome = true ∧
    (step initialState .submitClick).isSubmitting = false :=
  ⟨by decide,
   ((validator_text_fields_and_abort initialState rfl rfl (by decide)).1).mpr
     (by decide),
   (validator_text_fields_and_abort initialState rfl rfl (by decide)).2.2.2.2.2⟩

/-- C2: with isDirectorPlaywright false and no permission file the
validator flags authorPermissionFile; with isDirectorPlaywright true it
never flags that field, whatever its value. -/
theorem conditional_permission_flagging (fd : RegistrationData) :
    (fd.isDirectorPlaywright = false → fd.authorPermissionFile = none →
      (validate fd).authorPermissionFile = some permissionFileRequired) ∧
    (fd.isDirectorPlaywright = true →
      (validate fd).authorPermissionFile = none) := by
  constructor
  · intro h1 h2
    simp [validate, h1, h2]
  · intro h1
    simp [validate, h1]

/-- Witness for C2: the blank form with the flag set to false is flagged;
the blank form with the default flag is not. -/
theorem conditional_permission_flagging_witness :
    (validate { initialFormData with isDirectorPlaywright := false }).authorPermissionFile =
      some permissionFileRequired ∧
    (validate initialFormData).authorPermissionFile = none :=
  ⟨(conditional_permission_flagging
      { initialFormData with isDirectorPlaywright := false }).1 rfl rfl,
   (conditional_permission_flagging initialFormData).2 rfl⟩

/-- C3: toggling the radio to true clears the permission file and its
error; toggling to false keeps a previously selected permission file; in
both directions every other field of RegistrationData is unchanged. -/
theorem radio_toggle_effects (s : AppState) :
    (handleRadioChange s true).formData.isDirectorPlaywright = true ∧
    (handleRadioChange s true).formData.authorPermissionFile = none ∧
    (handleRadioChange s true).errors.authorPermissionFile = none ∧
    (handleRadioChange s false).formData.isDirectorPlaywright = false ∧
    (handleRadioChange s false).formData.authorPermissionFile =
      s.formData.authorPermissionFile ∧
    (∀ b : Bool,
      (handleRadioChange s b).formData.directorName = s.formData.directorName ∧
      (handleRadioChange s b).formData.playwrightName = s.formData.playwrightName ∧
      (handleRadioChange s b).formData.directorPhone = s.formData.directorPhone ∧
      (handleRadioChange s b).formData.playTitle = s.formData.playTitle ∧
      (handleRadioChange s b).formData.scriptFile = s.formData.scriptFile) := by
  refine ⟨rfl, rfl, rfl, rfl, rfl, ?_⟩
  intro b
  exact ⟨rfl, rfl, rfl, rfl, rfl⟩

/-- C4: the script guard rejects any selected file whose MIME type is not
exactly application/pdf, setting the scriptFile error and leaving
formData untouched; it accepts an application/pdf file, storing it and
clearing the scriptFile error. -/
theorem script_guard_pdf_only (s : AppState) (f : File) :
    (f.type ≠ "application/pdf" →
      handleScriptChange s (some f) =
        { s with errors := { s.errors with scriptFile := some scriptTypeError } }) ∧
    (f.type = "application/pdf" →
      handleScriptChange s (some f) =
        { s with
          formData := { s.formData with scriptFile := some f },
          errors := { s.errors with scriptFile := none } }) := by
  constructor
  · intro h
    simp [handleScriptChange, h]
  · intro h
    simp [handleScriptChange, h]

/-- Witness for C4: a text/plain file is rejected without touching the
stored script file; a PDF is stored. -/
theorem script_guard_pdf_only_witness :
    (handleScriptChange initialState
        (some { name := "a.txt", type := "text/plain" })).formData = initialState.formData ∧
    (handleScriptChange initialState
        (some { name := "a.pdf", type := "application/pdf" })).formData.scriptFile =
      some { name := "a.pdf", type := "application/pdf" } := by
  constructor
  · rw [(script_guard_pdf_only initialState
      { name := "a.txt", type := "text/plain" }).1 (by decide)]
  · rw [(script_guard_pdf_only initialState
      { name := "a.pdf", type := "application/pdf" }).2 rfl]

/-- C5: from mount, after any sequence of UI events, a stored script file
always has MIME type application/pdf (the guard establishes the invariant
at selection time and every operation preserves it). -/
theorem script_file_pdf_invariant :
    ∀ es : List Event, scriptInvB (run es) = true := by
  intro es
  suffices h : ∀ s : AppState, scriptInvB s = true →
      scriptInvB (es.foldl step s) = true by
    exact h initialState rfl
  induction es with
  | nil =>
    intro s hs
    simpa using hs
  | cons e t ih =>
    intro s hs
    show scriptInvB (t.foldl step (step s e)) = true
    exact ih (step s e) (scriptInvB_step s e hs)

/-- C6: the permission guard rejects any file whose MIME type is outside
pdf/jpeg/png with the jpg alias also accepted; rejection sets the field
error and leaves formData untouched, acceptance stores the file and
clears the error. -/
theorem permission_guard_accepted_types (s : AppState) (f : File) :
    (f.type ∉ (["application/pdf", "image/jpeg", "image/png"] : List String) →
      f.type ≠ "image/jpg" →
      handlePermissionChange s (some f) =
        { s with
          errors := { s.errors with authorPermissionFile := some permissionTypeError } }) ∧
    (f.type ∈ (["application/pdf", "image/jpeg", "image/png"] : List String) ∨
      f.type = "image/jpg" →
      handlePermissionChange s (some f) =
        { s with
          formData := { s.formData with authorPermissionFile := some f },
          errors := { s.errors with authorPermissionFile := none } }) := by
  constructor
  · intro h1 h2
    have hm : f.type ∉ permissionAcceptedTypes := by
      simp only [permissionAcceptedTypes, List.mem_cons, List.not_mem_nil, or_false] at h1 ⊢
      simp only [not_or] at h1
      exact fun hc => by
        rcases hc with hc | hc | hc | hc
        · exact h1.1 hc
        · exact h1.2.1 hc
        · exact h1.2.2 hc
        · exact h2 hc
    simp [handlePermissionChange, hm]
  · intro h1
    have hm : f.type ∈ permissionAcceptedTypes := by
      simp only [permissionAcceptedTypes, List.mem_cons, List.not_mem_nil, or_false]
      simp only [List.mem_cons, List.not_mem_nil, or_false] at h1
      tauto
    simp [handlePermissionChange, hm]

/-- Witness for C6: an image/jpg file is accepted and stored; a
text/plain file is rejected with formData untouched. -/
theorem permission_guard_accepted_types_witness :
    (handlePermissionChange initialState
        (some { name := "p.jpg", type := "image/jpg" })).formData.authorPermissionFile =
      some { name := "p.jpg", type := "image/jpg" } ∧
    (handlePermissionChange initialState
        (some { name := "p.txt", type := "text/plain" })).formData = initialState.formData := by
  constructor
  · rw [(permission_guard_accepted_types initialState
      { name := "p.jpg", type := "image/jpg" }).2 (Or.inr rfl)]
  · rw [(permission_guard_accepted_types initialState
      { name := "p.txt", type := "text/plain" }).1 (by decide) (by decide)]

/-- C7: from the success view, the reset action returns to Idle with the
four text fields empty, both files null, isDirectorPlaywright true, an
empty error map and no stored message. -/
theorem reset_restores_defaults (s : AppState) (h : s.isSuccess = true) :
    (step s .resetClick).formData.directorName = "" ∧
    (step s .resetClick).formData.playwrightName = "" ∧
    (step s .resetClick).formData.directorPhone = "" ∧
    (step s .resetClick).formData.playTitle = "" ∧
    (step s .resetClick).formData.scriptFile = none ∧
    (step s .resetClick).formData.isDirectorPlaywright = true ∧
    (step s .resetClick).formData.authorPermissionFile = none ∧
    (step s .resetClick).errors = Errors.empty ∧
    (step s .resetClick).isSuccess = false ∧
    (step s .resetClick).aiMessage = "" := by
  have h1 : step s .resetClick = resetForm s := by
    simp [step, h]
  rw [h1]
  simp [resetForm, initialFormData]

/-- Witness for C7 at a concrete success state. -/
theorem reset_restores_defaults_witness :
    ({ initialState with isSuccess := true } : AppState).isSuccess = true ∧
    (step { initialState with isSuccess := true } .resetClick).isSuccess = false ∧
    (step { initialState with isSuccess := true } .resetClick).aiMessage = "" :=
  ⟨rfl,
   (reset_restores_defaults { initialState with isSuccess := true } rfl).2.2.2.2.2.2.2.2.1,
   (reset_restores_defaults { initialState with isSuccess := true } rfl).2.2.2.2.2.2.2.2.2⟩

/-- C8: on a valid idle form, a submit click enters Submitting, and when
the generator rejects the state returns to Idle with the alert emitted,
Success never entered, and the whole RegistrationData (all four text
fields and both files) exactly as before the submission. -/
theorem generator_failure_atomic (s : AppState)
    (hsuc : s.isSuccess = false) (hsub : s.isSubmitting = false)
    (hok : (validate s.formData).isEmpty = true) :
    (step s .submitClick).isSubmitting = true ∧
    (step s .submitClick).isSuccess = false ∧
    (step (step s .submitClick) (.submitSettle .err)).isSubmitting = false ∧
    (step (step s .submitClick) (.submitSettle .err)).isSuccess = false ∧
    (step (step s .submitClick) (.submitSettle .err)).formData = s.formData ∧
    (step (step s .submitClick) (.submitSettle .err)).errors = s.errors ∧
    (step (step s .submitClick) (.submitSettle .err)).alerts =
      s.alerts ++ [submitFailureAlert] := by
  have h1 : step s .submitClick = { s with isSubmitting := true } := by
    simp [step, hsuc, hsub, handleSubmitStart, hok]
  rw [h1]
  simp [step, handleSubmitFinish, hsuc]

/-- Witness for C8 at the concrete validly filled idle state. -/
theorem generator_failure_atomic_witness :
    (validate filledState.formData).isEmpty = true ∧
    (step (step filledState .submitClick) (.submitSettle .err)).formData =
      filledState.formData ∧
    (step (step filledState .submitClick) (.submitSettle .err)).isSuccess = false :=
  ⟨by decide,
   (generator_failure_atomic filledState rfl rfl (by decide)).2.2.2.2.1,
   (generator_failure_atomic filledState rfl rfl (by decide)).2.2.2.1⟩

/-- C9: a submit click while a submission is in flight is a no-op (the
control is disabled), so a second submission can never start; and the
settling of the outstanding submission always leaves isSubmitting false,
on the success and on the failure path alike. -/
theorem no_concurrent_submissions (s : AppState) (g : GenResult) :
    (s.isSubmitting = true → step s .submitClick = s) ∧
    (step s (.submitSettle g)).isSubmitting = false := by
  constructor
  · intro h
    simp [step, h]
  · by_cases h : s.isSubmitting = true
    · rw [show step s (.submitSettle g) = handleSubmitFinish s g by simp [step, h]]
      cases g <;> rfl
    · rw [show step s (.submitSettle g) = s by simp [step, h]]
      simpa using h

/-- Witness for C9 at a concrete in-flight state. -/
theorem no_concurrent_submissions_witness :
    ({ initialState with isSubmitting := true } : AppState).isSubmitting = true ∧
    step { initialState with isSubmitting := true } .submitClick =
      { initialState with isSubmitting := true } ∧
    (step { initialState with isSubmitting := true } (.submitSettle .err)).isSubmitting = false :=
  ⟨rfl,
   (no_concurrent_submissions { initialState with isSubmitting := true } .err).1 rfl,
   (no_concurrent_submissions { initialState with isSubmitting := true } .err).2⟩

/-- C10: a selection event carrying no file bypasses both MIME guards,
nulls the corresponding stored file reference and clears its error,
while each handler leaves the other file slot alone. -/
theorem empty_selection_clears_file (s : AppState) :
    (handleScriptChange s none).formData.scriptFile = none ∧
    (handleScriptChange s none).errors.scriptFile = none ∧
    (handleScriptChange s none).formData.authorPermissionFile =
      s.formData.authorPermissionFile ∧
    (handlePermissionChange s none).formData.authorPermissionFile = none ∧
    (handlePermissionChange s none).errors.authorPermissionFile = none ∧
    (handlePermissionChange s none).formData.scriptFile = s.formData.scriptFile :=
  ⟨rfl, rfl, rfl, rfl, rfl, rfl⟩

end KootaahTheater
